import Mathlib

/-!
Verification development for the `ds_provider_postgresql_py_lib` repository:
a PostgreSQL linked service (connection/pool manager) and dataset
(table-level read/write) adapter.  The Python source is shallowly embedded:
pure helpers become Lean functions, exceptions become `Except`, and the
external SQLAlchemy / pandas effects (engine creation, `SELECT 1` probe,
`read_sql`, `to_sql`) are passed in as oracle functions whose calls are
recorded in an event trace.
-/

namespace PG

/-- A Python scalar value, as used in `ReadSettings.filters` values. -/
inductive PyValue where
  | pyStr (s : String)
  | pyInt (n : Int)
  | pyBool (b : Bool)
deriving DecidableEq, Repr

/-- Model of a pandas dtype, keeping exactly the attributes inspected by
`PostgreSQLDataset._pandas_dtype_to_sqlalchemy` and `_set_schema`:
the `pd.api.types.is_*_dtype` predicates, the optional `itemsize`
attribute (`none` models `hasattr(dtype, "itemsize")` being false), and
the name `str(dtype)` takes after `convert_dtypes(dtype_backend="pyarrow")`. -/
structure Dtype where
  isInteger : Bool := false
  itemsize : Option Nat := none
  isFloat : Bool := false
  isBool : Bool := false
  isDatetimeAny : Bool := false
  isString : Bool := false
  isCategorical : Bool := false
  pyarrowName : String := "object"
deriving DecidableEq, Repr

/-- The SQLAlchemy column types used by the dataset module. -/
inductive SAType where
  | saInteger
  | saBigInteger
  | saFloat
  | saBoolean
  | saDateTime
  | saString (length : Nat)
deriving DecidableEq, Repr

/-- Model of a pandas DataFrame: ordered columns with their dtypes, and a
row count.  `df.empty` in pandas is true when any axis has length 0. -/
structure DataFrame where
  dtypes : List (String × Dtype)
  nrows : Nat
deriving DecidableEq, Repr

/-- pandas `DataFrame.empty`: true when there are no rows or no columns. -/
def DataFrame.empty (df : DataFrame) : Bool :=
  df.nrows == 0 || df.dtypes.isEmpty

/-- Model of a resolved SQLAlchemy `Table`: the schema/name it was reflected
under and its columns in table-defined order (`table.c.keys()`). -/
structure Table where
  schemaName : String
  name : String
  columns : List String
deriving DecidableEq, Repr

/-- One entry of `ReadSettings.order_by`: a bare column name (`str`) or a
`(column, direction)` tuple. -/
inductive OrderSpec where
  | bare (col : String)
  | pair (col : String) (direction : String)
deriving DecidableEq, Repr

/-- Embedding of the `ReadSettings` dataclass (all fields default `None`). -/
structure ReadSettings where
  limit : Option Int := none
  columns : Option (List String) := none
  filters : Option (List (String × PyValue)) := none
  order_by : Option (List OrderSpec) := none
deriving DecidableEq, Repr

/-- The write modes admitted by `CreateSettings.mode`. -/
inductive WriteMode where
  | fail
  | append
  | replace
deriving DecidableEq, Repr

/-- Embedding of the `CreateSettings` dataclass with its field defaults
(`mode="fail"`, `index=False`). -/
structure CreateSettings where
  mode : WriteMode := .fail
  index : Bool := false
deriving DecidableEq, Repr

/-- Embedding of `PostgreSQLDatasetSettings` (the fields the read/create
paths consult; the host-framework identity fields are irrelevant here). -/
structure PGDatasetSettings where
  schemaName : String := "public"
  table : String
  read : Option ReadSettings := none
  create : Option CreateSettings := none
deriving DecidableEq, Repr

/-- Sort direction of one SQLAlchemy order clause (`asc(col)` / `desc(col)`). -/
inductive SortDir where
  | ascending
  | descending
deriving DecidableEq, Repr

/-- Model of the SQLAlchemy `Select` statement the builder stages grow:
the selected column list, the equality predicates combined with AND,
the order clauses in sequence, and the optional limit. -/
structure SelectStmt where
  selected : List String
  whereConds : List (String × PyValue)
  orderBy : List (String × SortDir)
  limit : Option Int := none
deriving DecidableEq, Repr

/-- `select(table)`: all table columns in table-defined order, no
constraints. -/
def selectAll (table : Table) : SelectStmt :=
  { selected := table.columns, whereConds := [], orderBy := [], limit := none }

/-- The errors raised by the embedded operations. -/
inductive DsError where
  | valueError (msg : String)
  | connectionError (msg : String)
  | createError (msg : String) (statusCode : Nat)
  | readError (msg : String) (statusCode : Nat)
deriving DecidableEq, Repr

/-- Python `repr` of a list of strings, as interpolated by
`f"... Available columns: {available_columns}"`. -/
def pyListRepr (xs : List String) : String :=
  "[" ++ String.intercalate ", " (xs.map (fun s => "'" ++ s ++ "'")) ++ "]"

/-- The message `_validate_column` raises for a missing column:
names the column, the settings table, and the table's column list. -/
def columnNotFoundMessage (settingsTable colName : String) (available : List String) : String :=
  "Column '" ++ colName ++ "' not found in table '" ++ settingsTable ++
    "'. Available columns: " ++ pyListRepr available

/-- Embedding of `PostgreSQLDataset._validate_column`: succeed when the
column is in `table.c`, otherwise raise `ValueError` with the message
listing the available columns. -/
def validate_column (settingsTable : String) (table : Table) (colName : String) :
    Except DsError Unit :=
  if table.columns.contains colName then .ok ()
  else .error (.valueError (columnNotFoundMessage settingsTable colName table.columns))

/-- Validate a list of column names in order, stopping at the first failure
(the Python `for` loop raises out of the loop on the first missing column). -/
def validateColumns (settingsTable : String) (table : Table) :
    List String → Except DsError Unit
  | [] => .ok ()
  | c :: rest => do
    validate_column settingsTable table c
    validateColumns settingsTable table rest

/-- Python truthiness of an optional collection: `None` and the empty
collection are falsy. -/
def truthy {α : Type} : Option (List α) → Bool
  | none => false
  | some l => !l.isEmpty

/-- Embedding of `PostgreSQLDataset._build_select_columns`: when
`read_props and read_props.columns` is truthy, validate each named column
then select exactly those columns in order; otherwise `select(table)`. -/
def build_select_columns (settingsTable : String) (table : Table)
    (read_props : Option ReadSettings) : Except DsError SelectStmt :=
  match read_props with
  | some props =>
    match props.columns with
    | some cols =>
      if cols.isEmpty then .ok (selectAll table)
      else do
        validateColumns settingsTable table cols
        .ok { selected := cols, whereConds := [], orderBy := [], limit := none }
    | none => .ok (selectAll table)
  | none => .ok (selectAll table)

/-- Embedding of `PostgreSQLDataset._build_filters`: when
`read_props.filters` is truthy, validate every key, then AND one equality
predicate per entry onto the statement; otherwise return it unchanged. -/
def build_filters (settingsTable : String) (stmt : SelectStmt) (table : Table)
    (read_props : Option ReadSettings) : Except DsError SelectStmt :=
  match read_props with
  | none => .ok stmt
  | some props =>
    match props.filters with
    | none => .ok stmt
    | some fs =>
      if fs.isEmpty then .ok stmt
      else do
        validateColumns settingsTable table (fs.map Prod.fst)
        .ok { stmt with whereConds := stmt.whereConds ++ fs }

/-- Python `str.lower()` on the ASCII direction strings compared here:
lowercase every character. -/
def pyLower (s : String) : String := String.mk (s.data.map Char.toLower)

/-- Translate one `order_by` entry into an order clause, validating its
column first: a bare name is ascending; a tuple is descending exactly when
`direction.lower() == "desc"`. -/
def orderClauseOf (settingsTable : String) (table : Table) :
    OrderSpec → Except DsError (String × SortDir)
  | .pair col direction => do
    validate_column settingsTable table col
    if pyLower direction == "desc" then .ok (col, .descending)
    else .ok (col, .ascending)
  | .bare col => do
    validate_column settingsTable table col
    .ok (col, .ascending)

/-- Build the order clauses of all entries in sequence, stopping at the
first validation failure (as the Python loop raises out). -/
def orderClausesOf (settingsTable : String) (table : Table) :
    List OrderSpec → Except DsError (List (String × SortDir))
  | [] => .ok []
  | spec :: rest => do
    let c ← orderClauseOf settingsTable table spec
    let cs ← orderClausesOf settingsTable table rest
    .ok (c :: cs)

/-- Embedding of `PostgreSQLDataset._build_order_by`: when
`read_props.order_by` is truthy, append the translated clauses in entry
order; otherwise return the statement unchanged. -/
def build_order_by (settingsTable : String) (stmt : SelectStmt) (table : Table)
    (read_props : Option ReadSettings) : Except DsError SelectStmt :=
  match read_props with
  | none => .ok stmt
  | some props =>
    match props.order_by with
    | none => .ok stmt
    | some specs =>
      if specs.isEmpty then .ok stmt
      else do
        let clauses ← orderClausesOf settingsTable table specs
        .ok { stmt with orderBy := stmt.orderBy ++ clauses }

/-- Embedding of the per-dtype branch of
`PostgreSQLDataset._pandas_dtype_to_sqlalchemy` (first match wins). -/
def dtypeToSqlalchemy (d : Dtype) : SAType :=
  if d.isInteger then
    if (match d.itemsize with | some n => n ≤ 2 | none => false : Bool) then .saInteger
    else .saBigInteger
  else if d.isFloat then .saFloat
  else if d.isBool then .saBoolean
  else if d.isDatetimeAny then .saDateTime
  else if d.isString || d.isCategorical then .saString 255
  else .saString 255

/-- Embedding of `PostgreSQLDataset._pandas_dtype_to_sqlalchemy`: map every
column of the dtypes series through the branch above, keeping order. -/
def pandas_dtype_to_sqlalchemy (dtypes : List (String × Dtype)) :
    List (String × SAType) :=
  dtypes.map (fun cd => (cd.1, dtypeToSqlalchemy cd.2))

/-- Embedding of `PostgreSQLDataset._set_schema`: the schema map sends each
column name to the string form of its pyarrow-converted dtype, in column
order. -/
def schemaOf (df : DataFrame) : List (String × String) :=
  df.dtypes.map (fun cd => (cd.1, cd.2.pyarrowName))

/-- Model of an SQLAlchemy `Engine` (identified, with its pool). -/
structure Engine where
  engineId : Nat
deriving DecidableEq, Repr

/-- Model of the pool a live engine carries (`engine.pool`). -/
structure Pool where
  ofEngine : Engine
deriving DecidableEq, Repr

/-- Embedding of `PostgreSQLLinkedServiceSettings` with its defaults. -/
structure PGLinkedServiceSettings where
  uri : String
  pool_size : Int := 5
  max_overflow : Int := 10
  pool_timeout : Int := 30
  pool_recycle : Int := 3600
deriving DecidableEq, Repr

/-- The mutable state of a `PostgreSQLLinkedService`: its `_engine` field. -/
structure LSState where
  engine : Option Engine := none
deriving DecidableEq, Repr

/-- Observable external effects of the linked service: `create_engine`
calls (with the uri and the four pool parameters), `dispose` calls, and
the `SELECT 1` liveness probe. -/
inductive LSEvent where
  | createEngineCall (uri : String)
      (pool_size max_overflow pool_timeout pool_recycle : Int)
  | disposeCall (e : Engine)
  | probeCall (e : Engine)
deriving DecidableEq, Repr

/-- Oracle for `sqlalchemy.create_engine`: may raise (malformed URI etc.),
modelled as `Except` with the exception text. -/
def CreateEngineOracle : Type :=
  String → Int → Int → Int → Int → Except String Engine

/-- Oracle for the `SELECT 1` probe run inside `engine.begin()`:
`Except` failure models any exception raised during the probe. -/
def ProbeOracle : Type := Engine → Except String Unit

/-- Embedding of `PostgreSQLLinkedService.connect`: a no-op when `_engine`
is already set; otherwise call `create_engine` with the settings' uri and
four pool parameters, propagating (not catching) any exception. -/
def connect (ce : CreateEngineOracle) (s : PGLinkedServiceSettings)
    (st : LSState) : Except String LSState × List LSEvent :=
  match st.engine with
  | some _ => (.ok st, [])
  | none =>
    let ev := LSEvent.createEngineCall s.uri s.pool_size s.max_overflow
      s.pool_timeout s.pool_recycle
    match ce s.uri s.pool_size s.max_overflow s.pool_timeout s.pool_recycle with
    | .ok e => (.ok { engine := some e }, [ev])
    | .error m => (.error m, [ev])

/-- Iterate `connect` `n` times in sequence, accumulating the event trace;
stops early only if a call raises. -/
def connectN (ce : CreateEngineOracle) (s : PGLinkedServiceSettings)
    (st : LSState) : Nat → Except String LSState × List LSEvent
  | 0 => (.ok st, [])
  | n + 1 =>
    match connect ce s st with
    | (.error m, evs) => (.error m, evs)
    | (.ok st1, evs) =>
      let (r, evs2) := connectN ce s st1 n
      (r, evs ++ evs2)

/-- Embedding of `PostgreSQLLinkedService.close`: dispose the engine when
one exists, reset `_engine` to `None`; otherwise do nothing.  Total (never
raises). -/
def close (st : LSState) : LSState × List LSEvent :=
  match st.engine with
  | some e => ({ engine := none }, [.disposeCall e])
  | none => ({ engine := none }, [])

/-- Iterate `close` `n` times, accumulating the event trace. -/
def closeN (st : LSState) : Nat → LSState × List LSEvent
  | 0 => (st, [])
  | n + 1 =>
    let (st1, evs) := close st
    let (st2, evs2) := closeN st1 n
    (st2, evs ++ evs2)

/-- The `engine` property accessor: `None` before `connect`, the live
engine after. -/
def engineAccessor (st : LSState) : Option Engine := st.engine

/-- The `pool` property accessor: `self._engine.pool if self._engine else
None`. -/
def poolAccessor (st : LSState) : Option Pool :=
  match st.engine with
  | some e => some (Pool.mk e)
  | none => none

/-- Embedding of `PostgreSQLLinkedService.test_connection`: inside one
`try`, connect first when `_engine is None` (a `create_engine` exception is
caught by the same handler), then run the `SELECT 1` probe within
`engine.begin()`; every exception becomes `(False, "Connection test
failed: ...")`, success becomes `(True, "Connection successfully tested")`.
The defensive `if self._engine is None: return False, "Failed to create
engine"` after a successful `connect()` is unreachable, since `connect`
always sets `_engine` when it returns normally. -/
def test_connection (ce : CreateEngineOracle) (probe : ProbeOracle)
    (s : PGLinkedServiceSettings) (st : LSState) :
    (Bool × String) × LSState × List LSEvent :=
  match st.engine with
  | some e =>
    match probe e with
    | .ok _ => ((true, "Connection successfully tested"), st, [.probeCall e])
    | .error m =>
      ((false, "Connection test failed: " ++ m), st, [.probeCall e])
  | none =>
    match connect ce s st with
    | (.error m, evs) => ((false, "Connection test failed: " ++ m), st, evs)
    | (.ok st1, evs) =>
      match st1.engine with
      | none => ((false, "Failed to create engine"), st1, evs)
      | some e =>
        match probe e with
        | .ok _ =>
          ((true, "Connection successfully tested"), st1, evs ++ [.probeCall e])
        | .error m =>
          ((false, "Connection test failed: " ++ m), st1, evs ++ [.probeCall e])

/-- The observable per-dataset state mutated by `read` and `create`:
the input table, the produced output table, the derived schema map, and
the "more data" flag `next`. -/
structure DSState where
  input : Option DataFrame := none
  output : Option DataFrame := none
  schemaMap : Option (List (String × String)) := none
  next : Bool := true
deriving DecidableEq, Repr

/-- Observable effect of the bulk write: the single `DataFrame.to_sql`
call with its table, schema, `if_exists` mode, index flag, dtype map and
the frame written. -/
inductive WriteEvent where
  | toSqlCall (table schemaName : String) (ifExists : WriteMode)
      (index : Bool) (dtypeMap : List (String × SAType)) (df : DataFrame)
deriving DecidableEq, Repr

/-- Oracle for `DataFrame.to_sql`: `Except` failure models any exception
raised by the underlying bulk write. -/
def ToSqlOracle : Type := WriteEvent → Except String Unit

/-- Oracle for `pd.read_sql` + `pd.concat` over the built statement:
returns the materialized frame, or the exception text. -/
def RunQueryOracle : Type := SelectStmt → Except String DataFrame

/-- Embedding of `PostgreSQLDataset.create`: require a live engine, reject
empty/absent input with a 400 `CreateError` before any write call, then
issue the single `to_sql` call with the configured (or default) mode and
index flag and the mapped dtypes; on success the input becomes the output
and the schema is derived from it; a write exception is wrapped into a 500
`CreateError` and the state is left untouched. -/
def create (engine : Option Engine) (toSql : ToSqlOracle)
    (settings : PGDatasetSettings) (st : DSState) :
    Except DsError Unit × DSState × List WriteEvent :=
  let create_props := settings.create.getD {}
  match engine with
  | none => (.error (.connectionError "Connection pool is not initialized."), st, [])
  | some _ =>
    match st.input with
    | none => (.error (.createError "Input is empty or None." 400), st, [])
    | some df =>
      if df.empty then
        (.error (.createError "Input is empty or None." 400), st, [])
      else
        let ev := WriteEvent.toSqlCall settings.table settings.schemaName
          create_props.mode create_props.index
          (pandas_dtype_to_sqlalchemy df.dtypes) df
        match toSql ev with
        | .ok _ =>
          (.ok (), { st with output := some df, schemaMap := some (schemaOf df) }, [ev])
        | .error m =>
          (.error (.createError ("Failed to write data to table: " ++ m) 500), st, [ev])

/-- The statement `read` builds before executing: the three builder stages
followed by the limit stage (`if read_props and read_props.limit is not
None`). -/
def buildReadStmt (settingsTable : String) (table : Table)
    (read_props : Option ReadSettings) : Except DsError SelectStmt := do
  let s1 ← build_select_columns settingsTable table read_props
  let s2 ← build_filters settingsTable s1 table read_props
  let s3 ← build_order_by settingsTable s2 table read_props
  match read_props with
  | some props =>
    match props.limit with
    | some l => .ok { s3 with limit := some l }
    | none => .ok s3
  | none => .ok s3

/-- Embedding of `PostgreSQLDataset.read`: require a live engine, build
the statement (any validation `ValueError` propagates, leaving the state
untouched), execute it in chunks and concatenate; on success the result
becomes the output, the schema is derived from it and `next` is cleared;
an execution exception is wrapped into a 500 `ReadError` with the state
untouched.  The resolved `Table` is a parameter (the reflection performed
by `_get_table` is external). -/
def read (engine : Option Engine) (table : Table) (runQuery : RunQueryOracle)
    (settings : PGDatasetSettings) (st : DSState) :
    Except DsError Unit × DSState :=
  match engine with
  | none => (.error (.connectionError "Connection pool is not initialized."), st)
  | some _ =>
    match buildReadStmt settings.table table settings.read with
    | .error e => (.error e, st)
    | .ok stmt =>
      match runQuery stmt with
      | .ok df =>
        (.ok (), { st with output := some df, schemaMap := some (schemaOf df),
                           next := false })
      | .error m =>
        (.error (.readError ("Failed to read data from table: " ++ m) 500), st)

/-- `msg` contains `pat` as a substring. -/
def containsStr (pat msg : String) : Prop :=
  ∃ pre suf, msg = pre ++ pat ++ suf

/-- The column an `order_by` entry refers to. -/
def specCol : OrderSpec → String
  | .bare c => c
  | .pair c _ => c

/-- The order clause the claim assigns to one `order_by` entry: a bare
name is ascending; a pair is descending exactly when its direction
compares case-insensitively equal to `"desc"`. -/
def expectedOrderClause : OrderSpec → String × SortDir
  | .bare c => (c, .ascending)
  | .pair c d => (c, if pyLower d == "desc" then .descending else .ascending)

theorem validate_column_ok (t : String) (tbl : Table) (c : String)
    (h : c ∈ tbl.columns) : validate_column t tbl c = .ok () := by
  simp [validate_column]
  exact h

theorem validate_column_missing (t : String) (tbl : Table) (c : String)
    (h : c ∉ tbl.columns) :
    validate_column t tbl c =
      .error (.valueError (columnNotFoundMessage t c tbl.columns)) := by
  simp [validate_column]
  exact h

theorem validateColumns_ok (t : String) (tbl : Table) :
    ∀ cols : List String, (∀ c ∈ cols, c ∈ tbl.columns) →
      validateColumns t tbl cols = .ok ()
  | [], _ => rfl
  | c :: rest, h => by
    have hc := validate_column_ok t tbl c (h c (by simp))
    have hr := validateColumns_ok t tbl rest (fun x hx => h x (by simp [hx]))
    simp [validateColumns, hc, hr, Bind.bind, Except.bind]

theorem validateColumns_first_missing (t : String) (tbl : Table) :
    ∀ (pre : List String) (c : String) (suf : List String),
      (∀ p ∈ pre, p ∈ tbl.columns) → c ∉ tbl.columns →
      validateColumns t tbl (pre ++ c :: suf) =
        .error (.valueError (columnNotFoundMessage t c tbl.columns))
  | [], c, suf, _, hc => by
    simp [validateColumns, validate_column_missing t tbl c hc, Bind.bind, Except.bind]
  | p :: pre, c, suf, hpre, hc => by
    have hp := validate_column_ok t tbl p (hpre p (by simp))
    have hr := validateColumns_first_missing t tbl pre c suf
      (fun x hx => hpre x (by simp [hx])) hc
    simp [validateColumns, hp, hr, Bind.bind, Except.bind]

/-- C1: with a non-empty `columns` list whose names all exist, the built
statement selects exactly those columns in order; at the first missing
name the stage raises the `ValueError` naming that column and listing the
table's column names; with `columns` unset it selects all table columns in
table-defined order; and a column-stage error is exactly what `read`
raises. -/
theorem C1_column_selection (tname : String) (table : Table)
    (rp : ReadSettings) (cols : List String) (hcols : rp.columns = some cols) :
    (cols ≠ [] → (∀ c ∈ cols, c ∈ table.columns) →
      build_select_columns tname table (some rp) =
        .ok { selected := cols, whereConds := [], orderBy := [], limit := none }) ∧
    (∀ pre c suf, cols = pre ++ c :: suf → (∀ p ∈ pre, p ∈ table.columns) →
      c ∉ table.columns →
      build_select_columns tname table (some rp) =
        .error (.valueError (columnNotFoundMessage tname c table.columns))) ∧
    (∀ rp2 : ReadSettings, rp2.columns = none →
      build_select_columns tname table (some rp2) = .ok (selectAll table)) ∧
    (∀ (settings : PGDatasetSettings) (e : Engine) (rq : RunQueryOracle)
        (st : DSState) (err : DsError),
      build_select_columns settings.table table settings.read = .error err →
      (read (some e) table rq settings st).1 = .error err) := by
  refine ⟨?_, ?_, ?_, ?_⟩
  · intro hne hall
    have hv := validateColumns_ok tname table cols hall
    have hemp : cols.isEmpty = false := by
      cases cols with
      | nil => exact absurd rfl hne
      | cons a l => rfl
    simp [build_select_columns, hcols, hemp, hv, Bind.bind, Except.bind]
  · intro pre c suf hsplit hpre hc
    have hv := validateColumns_first_missing tname table pre c suf hpre hc
    subst hsplit
    have hemp : (pre ++ c :: suf).isEmpty = false := by
      cases pre <;> rfl
    simp [build_select_columns, hcols, hemp, hv, Bind.bind, Except.bind]
  · intro rp2 h2
    simp [build_select_columns, h2]
  · intro settings e rq st err herr
    simp [read, buildReadStmt, herr, Bind.bind, Except.bind]

/-- C1 witness: on a concrete two-column table, selecting
`["name", "id"]` succeeds in that order, and selecting a missing column
raises the error listing the table's columns. -/
theorem C1_column_selection_witness :
    build_select_columns "users" ⟨"public", "users", ["id", "name"]⟩
        (some { columns := some ["name", "id"] }) =
      .ok { selected := ["name", "id"], whereConds := [], orderBy := [],
            limit := none } ∧
    build_select_columns "users" ⟨"public", "users", ["id", "name"]⟩
        (some { columns := some ["name", "zap", "id"] }) =
      .error (.valueError
        (columnNotFoundMessage "users" "zap" ["id", "name"])) :=
  ⟨(C1_column_selection "users" ⟨"public", "users", ["id", "name"]⟩
      { columns := some ["name", "id"] } ["name", "id"] rfl).1
      (by decide) (by decide),
   (C1_column_selection "users" ⟨"public", "users", ["id", "name"]⟩
      { columns := some ["name", "zap", "id"] } ["name", "zap", "id"] rfl).2.1
      ["name"] "zap" ["id"] rfl (by decide) (by decide)⟩

theorem orderClauseOf_ok (t : String) (tbl : Table) (s : OrderSpec)
    (h : specCol s ∈ tbl.columns) :
    orderClauseOf t tbl s = .ok (expectedOrderClause s) := by
  cases s with
  | bare c =>
    have hv := validate_column_ok t tbl c h
    simp [orderClauseOf, expectedOrderClause, hv, Bind.bind, Except.bind]
  | pair c d =>
    have hv := validate_column_ok t tbl c h
    by_cases hd : (pyLower d == "desc") = true <;>
      simp [orderClauseOf, expectedOrderClause, hv, hd, Bind.bind, Except.bind]

theorem orderClauseOf_missing (t : String) (tbl : Table) (s : OrderSpec)
    (h : specCol s ∉ tbl.columns) :
    orderClauseOf t tbl s =
      .error (.valueError (columnNotFoundMessage t (specCol s) tbl.columns)) := by
  cases s with
  | bare c =>
    have hv := validate_column_missing t tbl c h
    simp [orderClauseOf, specCol, hv, Bind.bind, Except.bind]
  | pair c d =>
    have hv := validate_column_missing t tbl c h
    simp [orderClauseOf, specCol, hv, Bind.bind, Except.bind]

theorem orderClausesOf_ok (t : String) (tbl : Table) :
    ∀ specs : List OrderSpec, (∀ s ∈ specs, specCol s ∈ tbl.columns) →
      orderClausesOf t tbl specs = .ok (specs.map expectedOrderClause)
  | [], _ => rfl
  | s :: rest, h => by
    have hs := orderClauseOf_ok t tbl s (h s (by simp))
    have hr := orderClausesOf_ok t tbl rest (fun x hx => h x (by simp [hx]))
    simp [orderClausesOf, hs, hr, Bind.bind, Except.bind]

theorem orderClausesOf_first_missing (t : String) (tbl : Table) :
    ∀ (pre : List OrderSpec) (s : OrderSpec) (suf : List OrderSpec),
      (∀ p ∈ pre, specCol p ∈ tbl.columns) → specCol s ∉ tbl.columns →
      orderClausesOf t tbl (pre ++ s :: suf) =
        .error (.valueError (columnNotFoundMessage t (specCol s) tbl.columns))
  | [], s, suf, _, hs => by
    simp [orderClausesOf, orderClauseOf_missing t tbl s hs, Bind.bind, Except.bind]
  | p :: pre, s, suf, hpre, hs => by
    have hp := orderClauseOf_ok t tbl p (hpre p (by simp))
    have hr := orderClausesOf_first_missing t tbl pre s suf
      (fun x hx => hpre x (by simp [hx])) hs
    simp [orderClausesOf, hp, hr, Bind.bind, Except.bind]

/-- C2: the built statement's order clauses correspond one-to-one, in
sequence order, to the `order_by` entries — a bare name ascending, a
`(column, direction)` pair descending exactly when the direction lowercases
to `"desc"` and ascending otherwise — and each entry's column is validated
first, the first missing one raising the column-not-found `ValueError`. -/
theorem C2_order_by (tname : String) (table : Table) (stmt : SelectStmt)
    (rp : ReadSettings) (specs : List OrderSpec)
    (hob : rp.order_by = some specs) :
    ((∀ s ∈ specs, specCol s ∈ table.columns) →
      build_order_by tname stmt table (some rp) =
        .ok { stmt with orderBy := stmt.orderBy ++ specs.map expectedOrderClause }) ∧
    (∀ pre s suf, specs = pre ++ s :: suf →
      (∀ p ∈ pre, specCol p ∈ table.columns) → specCol s ∉ table.columns →
      build_order_by tname stmt table (some rp) =
        .error (.valueError
          (columnNotFoundMessage tname (specCol s) table.columns))) := by
  constructor
  · intro hall
    cases hspecs : specs with
    | nil =>
      subst hspecs
      simp [build_order_by, hob]
    | cons s rest =>
      subst hspecs
      have hemp : (s :: rest).isEmpty = false := rfl
      have hv := orderClausesOf_ok tname table (s :: rest) hall
      simp [build_order_by, hob, hemp, hv, Bind.bind, Except.bind]
  · intro pre s suf hsplit hpre hs
    have hv := orderClausesOf_first_missing tname table pre s suf hpre hs
    subst hsplit
    have hemp : (pre ++ s :: suf).isEmpty = false := by cases pre <;> rfl
    simp [build_order_by, hob, hemp, hv, Bind.bind, Except.bind]

/-- C2 witness: against the concrete two-column fixture (created_at, name),
`order_by=[("created_at","desc"), "name"]` yields exactly the clauses
created_at descending then name ascending. -/
theorem C2_order_by_witness :
    build_order_by "events"
        (selectAll ⟨"public", "events", ["created_at", "name"]⟩)
        ⟨"public", "events", ["created_at", "name"]⟩
        (some { order_by := some [.pair "created_at" "desc", .bare "name"] }) =
      .ok { selected := ["created_at", "name"], whereConds := [],
            orderBy := [("created_at", .descending), ("name", .ascending)],
            limit := none } := by
  rw [(C2_order_by "events"
        ⟨"public", "events", ["created_at", "name"]⟩
        (selectAll ⟨"public", "events", ["created_at", "name"]⟩)
        { order_by := some [.pair "created_at" "desc", .bare "name"] }
        [.pair "created_at" "desc", .bare "name"] rfl).1 (by decide)]
  rfl

/-- C3: the per-column dtype-to-column-type mapping follows the claimed
first-match precedence: integer dtypes with `itemsize ≤ 2` map to the
(small) `Integer` type and other integer dtypes to `BigInteger`; then
float to `Float`, bool to `Boolean`, any datetime to `DateTime`, string or
categorical to `String(255)`, and everything else to `String(255)` too. -/
theorem C3_dtype_mapping (dtypes : List (String × Dtype)) (c : String)
    (d : Dtype) (hmem : (c, d) ∈ dtypes) :
    ∃ t, (c, t) ∈ pandas_dtype_to_sqlalchemy dtypes ∧
      (∀ n, d.isInteger = true → d.itemsize = some n → n ≤ 2 →
        t = .saInteger) ∧
      (∀ n, d.isInteger = true → d.itemsize = some n → 2 < n →
        t = .saBigInteger) ∧
      (d.isInteger = true → d.itemsize = none → t = .saBigInteger) ∧
      (d.isInteger = false → d.isFloat = true → t = .saFloat) ∧
      (d.isInteger = false → d.isFloat = false → d.isBool = true →
        t = .saBoolean) ∧
      (d.isInteger = false → d.isFloat = false → d.isBool = false →
        d.isDatetimeAny = true → t = .saDateTime) ∧
      (d.isInteger = false → d.isFloat = false → d.isBool = false →
        d.isDatetimeAny = false → (d.isString = true ∨ d.isCategorical = true) →
        t = .saString 255) ∧
      (d.isInteger = false → d.isFloat = false → d.isBool = false →
        d.isDatetimeAny = false → d.isString = false → d.isCategorical = false →
        t = .saString 255) := by
  refine ⟨dtypeToSqlalchemy d, ?_, ?_, ?_, ?_, ?_, ?_, ?_, ?_, ?_⟩
  · exact List.mem_map.mpr ⟨(c, d), hmem, rfl⟩
  · intro n hi hsz hle
    simp [dtypeToSqlalchemy, hi, hsz, hle]
  · intro n hi hsz hgt
    simp [dtypeToSqlalchemy, hi, hsz, Nat.not_le.mpr hgt]
  · intro hi hsz
    simp [dtypeToSqlalchemy, hi, hsz]
  · intro hi hf
    simp [dtypeToSqlalchemy, hi, hf]
  · intro hi hf hb
    simp [dtypeToSqlalchemy, hi, hf, hb]
  · intro hi hf hb hd
    simp [dtypeToSqlalchemy, hi, hf, hb, hd]
  · intro hi hf hb hd hsc
    rcases hsc with hs | hcat
    · simp [dtypeToSqlalchemy, hi, hf, hb, hd, hs]
    · simp [dtypeToSqlalchemy, hi, hf, hb, hd, hcat]
  · intro hi hf hb hd hs hc2
    simp [dtypeToSqlalchemy, hi, hf, hb, hd, hs, hc2]

/-- C3 witness: a 2-byte integer column maps to `Integer` in the produced
map, via the mapping theorem at a concrete dtype list. -/
theorem C3_dtype_mapping_witness :
    ("a", SAType.saInteger) ∈
      pandas_dtype_to_sqlalchemy
        [("a", { isInteger := true, itemsize := some 2, pyarrowName := "int16" })] := by
  obtain ⟨t, hmem, h1, -⟩ :=
    C3_dtype_mapping
      [("a", { isInteger := true, itemsize := some 2, pyarrowName := "int16" })]
      "a" { isInteger := true, itemsize := some 2, pyarrowName := "int16" }
      (by simp)
  have ht : t = .saInteger := h1 2 rfl rfl (by decide)
  rwa [ht] at hmem

theorem containsStr_failed (m : String) :
    containsStr "failed" ("Connection test failed: " ++ m) := by
  refine ⟨"Connection test ", ": " ++ m, ?_⟩
  rw [show "Connection test " ++ "failed" = "Connection test failed" from rfl,
    ← String.append_assoc,
    show "Connection test failed" ++ ": " = "Connection test failed: " from rfl]

theorem containsStr_success :
    containsStr "success" "Connection successfully tested" :=
  ⟨"Connection ", "fully tested", rfl⟩

/-- C4: `test_connection` is a total function into a `(bool, message)`
pair (the embedding has no exception escape): a true result carries a
message containing "success" and a false result one containing "failed";
with a live handle the result is true exactly when the probe succeeds;
with no handle it calls `connect()` first (the trace starts with the
`create_engine` call), a creation failure is caught into the failure pair,
and on creation success the result again tracks the probe. -/
theorem C4_test_connection (ce : CreateEngineOracle) (probe : ProbeOracle)
    (s : PGLinkedServiceSettings) (st : LSState) :
    ((test_connection ce probe s st).1.1 = true →
      containsStr "success" (test_connection ce probe s st).1.2) ∧
    ((test_connection ce probe s st).1.1 = false →
      containsStr "failed" (test_connection ce probe s st).1.2) ∧
    (∀ e, st.engine = some e →
      ((test_connection ce probe s st).1.1 = true ↔ probe e = .ok ())) ∧
    (st.engine = none →
      (test_connection ce probe s st).2.2.head? =
        some (.createEngineCall s.uri s.pool_size s.max_overflow
          s.pool_timeout s.pool_recycle)) ∧
    (st.engine = none → ∀ e,
      ce s.uri s.pool_size s.max_overflow s.pool_timeout s.pool_recycle = .ok e →
      ((test_connection ce probe s st).1.1 = true ↔ probe e = .ok ())) ∧
    (st.engine = none → ∀ m,
      ce s.uri s.pool_size s.max_overflow s.pool_timeout s.pool_recycle = .error m →
      (test_connection ce probe s st).1 =
        (false, "Connection test failed: " ++ m)) := by
  cases hst : st.engine with
  | some e =>
    cases hp : probe e with
    | ok u =>
      cases u
      refine ⟨fun _ => ?_, fun hfalse => ?_, fun e2 he2 => ?_,
        fun hn => Option.noConfusion hn, fun hn => Option.noConfusion hn,
        fun hn => Option.noConfusion hn⟩
      · simp [test_connection, hst, hp]
        exact containsStr_success
      · simp [test_connection, hst, hp] at hfalse
      · have he : e = e2 := by injection he2
        subst he
        simp [test_connection, hst, hp]
    | error m =>
      refine ⟨fun htrue => ?_, fun _ => ?_, fun e2 he2 => ?_,
        fun hn => Option.noConfusion hn, fun hn => Option.noConfusion hn,
        fun hn => Option.noConfusion hn⟩
      · simp [test_connection, hst, hp] at htrue
      · simp [test_connection, hst, hp]
        exact containsStr_failed m
      · have he : e = e2 := by injection he2
        subst he
        simp [test_connection, hst, hp]
  | none =>
    cases hce : ce s.uri s.pool_size s.max_overflow s.pool_timeout s.pool_recycle with
    | ok e =>
      cases hp : probe e with
      | ok u =>
        cases u
        refine ⟨fun _ => ?_, fun hfalse => ?_, fun e2 he2 => Option.noConfusion he2,
          fun _ => ?_, fun _ e2 he2 => ?_, fun _ m hm => Except.noConfusion hm⟩
        · simp [test_connection, connect, hst, hce, hp]
          exact containsStr_success
        · simp [test_connection, connect, hst, hce, hp] at hfalse
        · simp [test_connection, connect, hst, hce, hp]
        · have he : e = e2 := by injection he2
          subst he
          simp [test_connection, connect, hst, hce, hp]
      | error pm =>
        refine ⟨fun htrue => ?_, fun _ => ?_, fun e2 he2 => Option.noConfusion he2,
          fun _ => ?_, fun _ e2 he2 => ?_, fun _ m hm => Except.noConfusion hm⟩
        · simp [test_connection, connect, hst, hce, hp] at htrue
        · simp [test_connection, connect, hst, hce, hp]
          exact containsStr_failed pm
        · simp [test_connection, connect, hst, hce, hp]
        · have he : e = e2 := by injection he2
          subst he
          simp [test_connection, connect, hst, hce, hp]
    | error m0 =>
      refine ⟨fun htrue => ?_, fun _ => ?_, fun e2 he2 => Option.noConfusion he2,
        fun _ => ?_, fun _ e2 he2 => Except.noConfusion he2, fun _ m hm => ?_⟩
      · simp [test_connection, connect, hst, hce] at htrue
      · simp [test_connection, connect, hst, hce]
        exact containsStr_failed m0
      · simp [test_connection, connect, hst, hce]
      · have he : m0 = m := by injection hm
        subst he
        simp [test_connection, connect, hst, hce]

/-- C4 witness: with no handle, a succeeding `create_engine` and a probe
that throws, `test_connection` returns false with a message containing
"failed"; with a succeeding probe it returns true with a message
containing "success". -/
theorem C4_test_connection_witness :
    containsStr "failed"
      (test_connection (fun _ _ _ _ _ => .ok ⟨1⟩) (fun _ => .error "boom")
        { uri := "postgresql://localhost/db" } { engine := none }).1.2 ∧
    containsStr "success"
      (test_connection (fun _ _ _ _ _ => .ok ⟨1⟩) (fun _ => .ok ())
        { uri := "postgresql://localhost/db" } { engine := none }).1.2 :=
  ⟨(C4_test_connection (fun _ _ _ _ _ => .ok ⟨1⟩) (fun _ => .error "boom")
      { uri := "postgresql://localhost/db" } { engine := none }).2.1 rfl,
   (C4_test_connection (fun _ _ _ _ _ => .ok ⟨1⟩) (fun _ => .ok ())
      { uri := "postgresql://localhost/db" } { engine := none }).1 rfl⟩

/-- C5: with an active handle, `create` on an absent or empty input frame
raises the 400 "bad input" `CreateError`, leaves the dataset state
untouched, and records no `to_sql` call. -/
theorem C5_create_bad_input (e : Engine) (toSql : ToSqlOracle)
    (settings : PGDatasetSettings) (st : DSState)
    (h : st.input = none ∨ ∃ df, st.input = some df ∧ df.empty = true) :
    create (some e) toSql settings st =
      (.error (.createError "Input is empty or None." 400), st, []) := by
  rcases h with hnone | ⟨df, hdf, hemp⟩
  · simp [create, hnone]
  · simp [create, hdf, hemp]

/-- C5 witness: a concrete zero-row frame triggers the 400 error with an
empty write trace. -/
theorem C5_create_bad_input_witness :
    create (some ⟨1⟩) (fun _ => .ok ())
        { table := "users" }
        { input := some { dtypes := [("a", {})], nrows := 0 } } =
      (.error (.createError "Input is empty or None." 400),
        { input := some { dtypes := [("a", {})], nrows := 0 } }, []) :=
  C5_create_bad_input ⟨1⟩ (fun _ => .ok ()) { table := "users" }
    { input := some { dtypes := [("a", {})], nrows := 0 } }
    (Or.inr ⟨{ dtypes := [("a", {})], nrows := 0 }, rfl, rfl⟩)

/-- C6: `read` and `create` are atomic over the observable dataset state:
an error result leaves the state exactly as it was (no partial content or
schema assignment), and a success updates both the output content and the
schema map derived from it. -/
theorem C6_atomicity (engine : Option Engine) (table : Table)
    (rq : RunQueryOracle) (toSql : ToSqlOracle)
    (settings : PGDatasetSettings) (st : DSState) :
    (∀ err, (read engine table rq settings st).1 = .error err →
      (read engine table rq settings st).2 = st) ∧
    ((read engine table rq settings st).1 = .ok () →
      ∃ df, (read engine table rq settings st).2.output = some df ∧
        (read engine table rq settings st).2.schemaMap = some (schemaOf df)) ∧
    (∀ err, (create engine toSql settings st).1 = .error err →
      (create engine toSql settings st).2.1 = st) ∧
    ((create engine toSql settings st).1 = .ok () →
      ∃ df, (create engine toSql settings st).2.1.output = some df ∧
        (create engine toSql settings st).2.1.schemaMap = some (schemaOf df)) := by
  refine ⟨?_, ?_, ?_, ?_⟩
  · intro err herr
    cases engine with
    | none => simp [read]
    | some e =>
      cases hb : buildReadStmt settings.table table settings.read with
      | error e2 => simp [read, hb]
      | ok stmt =>
        cases hq : rq stmt with
        | ok df => simp [read, hb, hq] at herr
        | error m => simp [read, hb, hq]
  · intro hok
    cases engine with
    | none => simp [read] at hok
    | some e =>
      cases hb : buildReadStmt settings.table table settings.read with
      | error e2 => simp [read, hb] at hok
      | ok stmt =>
        cases hq : rq stmt with
        | ok df =>
          exact ⟨df, by simp [read, hb, hq]⟩
        | error m => simp [read, hb, hq] at hok
  · intro err herr
    cases engine with
    | none => simp [create]
    | some e =>
      cases hi : st.input with
      | none => simp [create, hi]
      | some df =>
        cases hemp : df.empty with
        | true => simp [create, hi, hemp]
        | false =>
          cases hw : toSql (.toSqlCall settings.table settings.schemaName
              (settings.create.getD {}).mode (settings.create.getD {}).index
              (pandas_dtype_to_sqlalchemy df.dtypes) df) with
          | ok u => simp [create, hi, hemp, hw] at herr
          | error m => simp [create, hi, hemp, hw]
  · intro hok
    cases engine with
    | none => simp [create] at hok
    | some e =>
      cases hi : st.input with
      | none => simp [create, hi] at hok
      | some df =>
        cases hemp : df.empty with
        | true => simp [create, hi, hemp] at hok
        | false =>
          cases hw : toSql (.toSqlCall settings.table settings.schemaName
              (settings.create.getD {}).mode (settings.create.getD {}).index
              (pandas_dtype_to_sqlalchemy df.dtypes) df) with
          | ok u =>
            exact ⟨df, by simp [create, hi, hemp, hw]⟩
          | error m => simp [create, hi, hemp, hw] at hok

/-- C6 witness: a failing query leaves a concrete prior state untouched,
via the atomicity theorem applied at that state. -/
theorem C6_atomicity_witness :
    (read (some ⟨1⟩) ⟨"public", "users", ["id"]⟩ (fun _ => .error "down")
        { table := "users" }
        { output := some { dtypes := [("id", {})], nrows := 2 } }).2 =
      { output := some { dtypes := [("id", {})], nrows := 2 } } :=
  (C6_atomicity (some ⟨1⟩) ⟨"public", "users", ["id"]⟩ (fun _ => .error "down")
      (fun _ => .ok ()) { table := "users" }
      { output := some { dtypes := [("id", {})], nrows := 2 } }).1
    (.readError ("Failed to read data from table: " ++ "down") 500) rfl

theorem connect_noop (ce : CreateEngineOracle) (s : PGLinkedServiceSettings)
    (e : Engine) : connect ce s { engine := some e } = (.ok { engine := some e }, []) :=
  rfl

theorem connectN_stable (ce : CreateEngineOracle) (s : PGLinkedServiceSettings)
    (e : Engine) : ∀ n, connectN ce s { engine := some e } n =
      (.ok { engine := some e }, [])
  | 0 => rfl
  | n + 1 => by
    simp [connectN, connect_noop, connectN_stable ce s e n]

/-- C7: `connect()` is idempotent — from the uninitialized state, a run of
`N ≥ 1` calls whose first `create_engine` succeeds performs exactly one
`create_engine` call (with the uri and the four pool parameters) and ends
with that engine installed; any later call on a live handle is a no-op. -/
theorem C7_connect_idempotent (ce : CreateEngineOracle)
    (s : PGLinkedServiceSettings) (e : Engine) (n : Nat)
    (hce : ce s.uri s.pool_size s.max_overflow s.pool_timeout s.pool_recycle = .ok e)
    (hn : 1 ≤ n) :
    connectN ce s { engine := none } n =
      (.ok { engine := some e },
        [.createEngineCall s.uri s.pool_size s.max_overflow
          s.pool_timeout s.pool_recycle]) ∧
    ∀ e2, connect ce s { engine := some e2 } = (.ok { engine := some e2 }, []) := by
  constructor
  · cases n with
    | zero => exact absurd hn (by decide)
    | succ m =>
      have h1 : connect ce s { engine := none } =
          (.ok { engine := some e },
            [.createEngineCall s.uri s.pool_size s.max_overflow
              s.pool_timeout s.pool_recycle]) := by
        simp [connect, hce]
      simp [connectN, h1, connectN_stable ce s e m]
  · intro e2
    exact connect_noop ce s e2

/-- C7 witness: three consecutive `connect()` calls from the uninitialized
state yield exactly one `create_engine` call and the created engine. -/
theorem C7_connect_idempotent_witness :
    connectN (fun _ _ _ _ _ => .ok ⟨7⟩) { uri := "postgresql://localhost/db" }
        { engine := none } 3 =
      (.ok { engine := some ⟨7⟩ },
        [.createEngineCall "postgresql://localhost/db" 5 10 30 3600]) :=
  (C7_connect_idempotent (fun _ _ _ _ _ => .ok ⟨7⟩)
    { uri := "postgresql://localhost/db" } ⟨7⟩ 3 rfl (by decide)).1

theorem closeN_uninitialized : ∀ k, closeN { engine := none } k =
    ({ engine := none }, [])
  | 0 => rfl
  | k + 1 => by simp [closeN, close, closeN_uninitialized k]

/-- C8: `close()` on the uninitialized state is a no-op with no dispose;
after a connect, any run of `k ≥ 1` closes disposes the engine exactly
once and leaves the service uninitialized, with the engine and pool
accessors returning `None`; and from every state `close` lands in the
uninitialized state (total, never raises). -/
theorem C8_close (e : Engine) (k : Nat) (hk : 1 ≤ k) :
    close { engine := none } = ({ engine := none }, []) ∧
    closeN { engine := some e } k = ({ engine := none }, [.disposeCall e]) ∧
    engineAccessor (closeN { engine := some e } k).1 = none ∧
    poolAccessor (closeN { engine := some e } k).1 = none ∧
    (∀ st : LSState, (close st).1 = { engine := none }) := by
  have hrun : closeN { engine := some e } k =
      ({ engine := none }, [.disposeCall e]) := by
    cases k with
    | zero => exact absurd hk (by decide)
    | succ m => simp [closeN, close, closeN_uninitialized m]
  refine ⟨rfl, hrun, ?_, ?_, ?_⟩
  · rw [hrun]; rfl
  · rw [hrun]; rfl
  · intro st
    cases hst : st.engine with
    | none => simp [close, hst]
    | some e2 => simp [close, hst]

/-- C8 witness: closing three times after a connect disposes exactly once
and leaves both accessors at `None`. -/
theorem C8_close_witness :
    closeN { engine := some ⟨7⟩ } 3 = ({ engine := none }, [.disposeCall ⟨7⟩]) ∧
    engineAccessor (closeN { engine := some ⟨7⟩ } 3).1 = none ∧
    poolAccessor (closeN { engine := some ⟨7⟩ } 3).1 = none :=
  ⟨(C8_close ⟨7⟩ 3 (by decide)).2.1, (C8_close ⟨7⟩ 3 (by decide)).2.2.1,
   (C8_close ⟨7⟩ 3 (by decide)).2.2.2.1⟩

/-- C9: each builder stage tests its collection for truthiness, so an
empty-but-present collection behaves exactly like `None`: `columns=[]`
selects all table columns, `filters={}` adds no WHERE predicate,
`order_by=[]` adds no order clause (and no column validation can fail for
that stage), and the fully built read statement with all three empty
equals the one built with the fields unset and the one built with
`settings.read = None`. -/
theorem C9_empty_collections (tname : String) (table : Table)
    (stmt : SelectStmt) (rp : ReadSettings) :
    (rp.columns = some [] →
      build_select_columns tname table (some rp) = .ok (selectAll table)) ∧
    (rp.columns = none →
      build_select_columns tname table (some rp) = .ok (selectAll table)) ∧
    (rp.filters = some [] →
      build_filters tname stmt table (some rp) = .ok stmt) ∧
    (rp.filters = none →
      build_filters tname stmt table (some rp) = .ok stmt) ∧
    (rp.order_by = some [] →
      build_order_by tname stmt table (some rp) = .ok stmt) ∧
    (rp.order_by = none →
      build_order_by tname stmt table (some rp) = .ok stmt) ∧
    buildReadStmt tname table
        (some { columns := some [], filters := some [], order_by := some [] }) =
      buildReadStmt tname table (some ({} : ReadSettings)) ∧
    buildReadStmt tname table
        (some { columns := some [], filters := some [], order_by := some [] }) =
      buildReadStmt tname table none := by
  refine ⟨?_, ?_, ?_, ?_, ?_, ?_, ?_, ?_⟩
  · intro h; simp [build_select_columns, h]
  · intro h; simp [build_select_columns, h]
  · intro h; simp [build_filters, h]
  · intro h; simp [build_filters, h]
  · intro h; simp [build_order_by, h]
  · intro h; simp [build_order_by, h]
  · rfl
  · rfl

/-- C9 witness: on a concrete table, the statement built from
`columns=[], filters={}, order_by=[]` equals `select *` of the table with
no WHERE, no ORDER BY and no limit. -/
theorem C9_empty_collections_witness :
    build_select_columns "users" ⟨"public", "users", ["id", "name"]⟩
        (some { columns := some [] }) =
      .ok (selectAll ⟨"public", "users", ["id", "name"]⟩) ∧
    build_filters "users" (selectAll ⟨"public", "users", ["id", "name"]⟩)
        ⟨"public", "users", ["id", "name"]⟩ (some { filters := some [] }) =
      .ok (selectAll ⟨"public", "users", ["id", "name"]⟩) ∧
    build_order_by "users" (selectAll ⟨"public", "users", ["id", "name"]⟩)
        ⟨"public", "users", ["id", "name"]⟩ (some { order_by := some [] }) =
      .ok (selectAll ⟨"public", "users", ["id", "name"]⟩) :=
  ⟨(C9_empty_collections "users" ⟨"public", "users", ["id", "name"]⟩
      (selectAll ⟨"public", "users", ["id", "name"]⟩)
      { columns := some [] }).1 rfl,
   (C9_empty_collections "users" ⟨"public", "users", ["id", "name"]⟩
      (selectAll ⟨"public", "users", ["id", "name"]⟩)
      { filters := some [] }).2.2.1 rfl,
   (C9_empty_collections "users" ⟨"public", "users", ["id", "name"]⟩
      (selectAll ⟨"public", "users", ["id", "name"]⟩)
      { order_by := some [] }).2.2.2.2.1 rfl⟩

/-- C10: with `settings.create = None`, a live handle and non-empty input,
`create` performs its single bulk-write call with the `CreateSettings`
defaults — `if_exists="fail"` and `index=False` — matching the dataclass
defaults rather than the append mode the settings-field docstring
describes. -/
theorem C10_default_create_settings (e : Engine) (toSql : ToSqlOracle)
    (settings : PGDatasetSettings) (st : DSState) (df : DataFrame)
    (hc : settings.create = none) (hi : st.input = some df)
    (hne : df.empty = false) :
    (create (some e) toSql settings st).2.2 =
      [.toSqlCall settings.table settings.schemaName .fail false
        (pandas_dtype_to_sqlalchemy df.dtypes) df] := by
  cases hw : toSql (.toSqlCall settings.table settings.schemaName .fail false
      (pandas_dtype_to_sqlalchemy df.dtypes) df) with
  | ok u =>
    simp [create, hc, hi, hne, hw, CreateSettings.mode, CreateSettings.index]
  | error m =>
    simp [create, hc, hi, hne, hw]

/-- C10 witness: a concrete one-row frame with `settings.create = None`
produces exactly one write call in mode `fail` with `index = false`. -/
theorem C10_default_create_settings_witness :
    (create (some ⟨1⟩) (fun _ => .ok ()) { table := "users" }
        { input := some { dtypes := [("a", {})], nrows := 1 } }).2.2 =
      [.toSqlCall "users" "public" .fail false
        [("a", .saString 255)] { dtypes := [("a", {})], nrows := 1 }] := by
  have h := C10_default_create_settings ⟨1⟩ (fun _ => .ok ())
    { table := "users" } { input := some { dtypes := [("a", {})], nrows := 1 } }
    { dtypes := [("a", {})], nrows := 1 } rfl rfl rfl
  simpa [pandas_dtype_to_sqlalchemy, dtypeToSqlalchemy] using h

end PG
